import Mathlib

/-!
Verification of the workspace-storage size aggregator
(`src/workspace_storage/fabric_util.py`).

Shallow embedding notes:
* Python optional strings (`Optional[str]`) become `Option String`; Python
  truthiness of such a value (`None` and `""` are falsy) is `pyTruthy`, and
  Python's `a or b` on them is `pyOr`.
* The module-level `FABRIC_AVAILABLE` flag together with the `sempy.fabric`
  client is modelled as an `Env` value: whether the client is importable,
  what `fabric.list_workspaces()` yields, and what
  `fabric.list_items(workspace=...)` yields per workspace id (`Except` for
  a raised exception).
* A pandas items DataFrame is modelled as `ItemsDf`: its rows, whether one
  of the recognised size columns is present (`hasSizeColumn`, the values
  after `fillna(0)` being the `size` fields), and whether the `Type` column
  is present (`hasTypeColumn`, values being the `type` fields).
* Raised Python errors become `Except PyError`; `PyError.valueError` is a
  `ValueError`, `PyError.exception` a generic `Exception`.
* Logging is side-effect free and omitted.
-/

namespace WorkspaceStorage

/-- Python truthiness of an `Optional[str]`: `None` and `""` are falsy. -/
def pyTruthy : Option String → Bool
  | none => false
  | some s => !(s == "")

/-- Python's `a or b` on `Optional[str]` values. -/
def pyOr (a b : Option String) : Option String :=
  if pyTruthy a then a else b

/-- Errors raised by the Python code: `ValueError` or a generic `Exception`. -/
inductive PyError where
  | valueError (msg : String)
  | exception (msg : String)
deriving DecidableEq

/-- The message carried by a raised error. -/
def PyError.msg : PyError → String
  | .valueError m => m
  | .exception m => m

/-- A workspace dictionary as built by `get_workspaces`. -/
structure Workspace where
  id : String
  name : String
  description : String
  is_capacity_assigned : Bool
  capacity_id : Option String
deriving DecidableEq

/-- One row of an items DataFrame: the value in the size column (after
`fillna(0)`, meaningful only when the DataFrame has a size column) and the
value in the `Type` column (meaningful only when that column is present). -/
structure ItemRow where
  size : Nat
  type : String
deriving DecidableEq

/-- An items DataFrame returned by `fabric.list_items`. -/
structure ItemsDf where
  rows : List ItemRow
  hasSizeColumn : Bool
  hasTypeColumn : Bool
deriving DecidableEq

/-- The external world: `FABRIC_AVAILABLE` and the semantic-link client. -/
structure Env where
  fabricAvailable : Bool
  listWorkspaces : Except String (List Workspace)
  listItems : String → Except String ItemsDf

/-- The state of a `FabricUtil` instance (set in `__init__`). -/
structure FabricUtil where
  workspace_id : Option String
  tenant_id : Option String
  connection_string : Option String
  authentication_method : String

/-- The fixed placeholder workspace list (fabric_util.py lines 98-113). -/
def placeholder_workspaces : List Workspace :=
  [⟨"workspace-1", "Default Workspace", "Default workspace for the tenant",
    true, some "capacity-1"⟩,
   ⟨"workspace-2", "Development Workspace", "Development environment workspace",
    false, none⟩]

/-- `FabricUtil.get_workspaces` (fabric_util.py lines 59-120): real data when
the client is importable and `list_workspaces` succeeds, else the
placeholder list. -/
def get_workspaces (env : Env) : List Workspace :=
  if env.fabricAvailable then
    match env.listWorkspaces with
    | .ok ws => ws
    | .error _ => placeholder_workspaces
  else placeholder_workspaces

/-- The static per-type size table (fabric_util.py lines 216-225). -/
def size_estimates : List (String × Nat) :=
  [("Dataset", 50 * 1024 * 1024), ("Report", 25 * 1024 * 1024),
   ("Dashboard", 100 * 1024), ("Dataflow", 10 * 1024 * 1024),
   ("Lakehouse", 100 * 1024 * 1024), ("Notebook", 5 * 1024 * 1024),
   ("SemanticModel", 30 * 1024 * 1024), ("Datamart", 75 * 1024 * 1024)]

/-- `size_estimates.get(item_type, 1024 * 1024)`: table lookup with the
1 MiB default for unknown types (fabric_util.py line 233). -/
def size_estimates_get (t : String) : Nat :=
  (size_estimates.lookup t).getD (1024 * 1024)

/-- `FabricUtil._estimate_workspace_size` (fabric_util.py lines 205-240).
With a `Type` column, pandas `value_counts` groups the rows by type value
and each group contributes `estimate * count`; the sum over the groups is
written as a `Finset.sum` over the distinct type values (`value_counts`
orders groups by count, which cannot affect the sum). Without a `Type`
column the row count is multiplied by the flat 20 MiB average. -/
def estimate_workspace_size (items_df : ItemsDf) : Nat :=
  if items_df.hasTypeColumn then
    (items_df.rows.map ItemRow.type).toFinset.sum
      (fun t => size_estimates_get t * List.count t (items_df.rows.map ItemRow.type))
  else
    items_df.rows.length * (20 * 1024 * 1024)

/-- The fixed placeholder item list (fabric_util.py lines 188-193). -/
def placeholder_workspace_items : List (String × Nat) :=
  [("dataset1.pbix", 1024 * 1024 * 50), ("report1.pbix", 1024 * 1024 * 25),
   ("dashboard1.json", 1024 * 100), ("model1.bim", 1024 * 1024 * 10)]

/-- The sum of the placeholder item sizes (the loop at lines 195-196). -/
def placeholder_workspace_total : Nat :=
  (placeholder_workspace_items.map Prod.snd).sum

/-- `FabricUtil.get_workspace_total_size` (fabric_util.py lines 122-203).
The `ValueError` is raised before the `try` block; inside it, a failure of
`fabric.list_items` is caught and falls through to the placeholder sum, a
successful listing returns the size-column sum, the type-based estimate, or
0 for an empty DataFrame. -/
def get_workspace_total_size (env : Env) (self : FabricUtil)
    (workspace_id : Option String) : Except PyError Nat :=
  let target_workspace_id := pyOr workspace_id self.workspace_id
  if !(pyTruthy target_workspace_id) then
    .error (.valueError
      "workspace_id must be provided either as parameter or during initialization")
  else
    .ok <|
      if env.fabricAvailable then
        match env.listItems (target_workspace_id.getD "") with
        | .ok items_df =>
          if !items_df.rows.isEmpty then
            if items_df.hasSizeColumn then (items_df.rows.map ItemRow.size).sum
            else estimate_workspace_size items_df
          else 0
        | .error _ => placeholder_workspace_total
      else placeholder_workspace_total

/-- The accumulation loop of `get_tenant_total_size` (fabric_util.py lines
272-274): sum `get_workspace_total_size(workspace["id"])` over the
workspace list, stopping at the first raised error. -/
def sum_workspace_sizes (env : Env) (self : FabricUtil) :
    List Workspace → Except PyError Nat
  | [] => .ok 0
  | w :: ws =>
    match get_workspace_total_size env self (some w.id) with
    | .ok s =>
      match sum_workspace_sizes env self ws with
      | .ok rest => .ok (s + rest)
      | .error e => .error e
    | .error e => .error e

/-- `FabricUtil.get_tenant_total_size` (fabric_util.py lines 242-281).
The `ValueError` is raised before the `try` block; an error raised inside
the loop is caught by the outer `except` and re-raised as a generic
`Exception`. -/
def get_tenant_total_size (env : Env) (self : FabricUtil)
    (tenant_id : Option String) : Except PyError Nat :=
  let target_tenant_id := pyOr tenant_id self.tenant_id
  if !(pyTruthy target_tenant_id) then
    .error (.valueError
      "tenant_id must be provided either as parameter or during initialization")
  else
    match sum_workspace_sizes env self (get_workspaces env) with
    | .ok total => .ok total
    | .error e => .error (.exception ("Failed to calculate tenant size: " ++ e.msg))

deriving instance DecidableEq for Except

/-- A `FabricUtil()` built with no arguments. -/
def util0 : FabricUtil := ⟨none, none, none, "default"⟩

/-- Environment in which semantic-link is not importable. -/
def envNoFabric : Env :=
  ⟨false, .error "semantic-link is not available",
   fun _ => .error "semantic-link is not available"⟩

/-- Environment in which `list_items` returns an empty DataFrame. -/
def envEmptyItems : Env :=
  ⟨true, .ok placeholder_workspaces, fun _ => .ok ⟨[], true, true⟩⟩

/-- Environment in which `list_items` raises. -/
def envListItemsFail : Env :=
  ⟨true, .ok placeholder_workspaces, fun _ => .error "network failure"⟩

/-- Helper: with semantic-link unavailable and a non-empty workspace id
argument, the workspace size is the placeholder item-list sum. -/
theorem gwts_unavailable (env : Env) (self : FabricUtil) (id : String)
    (hid : id ≠ "") (hav : env.fabricAvailable = false) :
    get_workspace_total_size env self (some id) = .ok placeholder_workspace_total := by
  simp [get_workspace_total_size, pyOr, pyTruthy, hid, hav]

/-- Helper: the placeholder item-list sum evaluates to 89,231,360 bytes. -/
theorem placeholder_workspace_total_eq : placeholder_workspace_total = 89231360 := by
  decide

/-- C1: for every non-empty workspace identifier, with the directory
collaborator unavailable, `get_workspace_total_size` returns the sum of the
fixed four-item placeholder list — which is 89,231,360 bytes
(50 MiB + 25 MiB + 100 KiB + 10 MiB), not the 88,162,816 the claim states. -/
theorem c1_workspace_placeholder_sum (env : Env) (self : FabricUtil) (id : String)
    (hid : id ≠ "") (hav : env.fabricAvailable = false) :
    get_workspace_total_size env self (some id) = .ok 89231360 := by
  rw [gwts_unavailable env self id hid hav, placeholder_workspace_total_eq]

/-- C1 witness. -/
theorem c1_workspace_placeholder_sum_witness :
    get_workspace_total_size envNoFabric util0 (some "workspace-1") = .ok 89231360 :=
  c1_workspace_placeholder_sum envNoFabric util0 "workspace-1" (by decide) rfl

/-- C1 counterexample: at a concrete non-empty id with the directory
unavailable the result is not 88,162,816 bytes. -/
theorem c1_counterexample :
    get_workspace_total_size envNoFabric util0 (some "workspace-1") ≠ .ok 88162816 := by
  decide

/-- C2: for every non-empty tenant identifier, with the directory
collaborator unavailable, the placeholder workspace list has exactly two
workspaces and `get_tenant_total_size` returns twice the single-workspace
placeholder sum — 2 × 89,231,360 = 178,462,720 bytes, not the 176,325,632
the claim states. -/
theorem c2_tenant_placeholder_sum (env : Env) (self : FabricUtil) (id : String)
    (hid : id ≠ "") (hav : env.fabricAvailable = false) :
    (get_workspaces env).length = 2 ∧
    get_tenant_total_size env self (some id) = .ok 178462720 := by
  have hws : get_workspaces env = placeholder_workspaces := by
    simp [get_workspaces, hav]
  refine ⟨by rw [hws]; rfl, ?_⟩
  have h1 := gwts_unavailable env self "workspace-1" (by decide) hav
  have h2 := gwts_unavailable env self "workspace-2" (by decide) hav
  simp [get_tenant_total_size, pyOr, pyTruthy, hid, hws, placeholder_workspaces,
    sum_workspace_sizes, h1, h2, placeholder_workspace_total_eq]

/-- C2 witness. -/
theorem c2_tenant_placeholder_sum_witness :
    (get_workspaces envNoFabric).length = 2 ∧
    get_tenant_total_size envNoFabric util0 (some "tenant-1") = .ok 178462720 :=
  c2_tenant_placeholder_sum envNoFabric util0 "tenant-1" (by decide) rfl

/-- C2 counterexample: at a concrete tenant id with the directory unavailable
the result is not 176,325,632 bytes. -/
theorem c2_counterexample :
    get_tenant_total_size envNoFabric util0 (some "tenant-1") ≠ .ok 176325632 := by
  decide

/-- C3: when the directory is available and returns an empty item list,
`get_workspace_total_size` returns 0 — not the placeholder item-list sum the
claim states (the placeholder is used only when the directory is unavailable
or `list_items` raises). -/
theorem c3_empty_items_zero (env : Env) (self : FabricUtil) (id : String)
    (df : ItemsDf) (hid : id ≠ "") (hav : env.fabricAvailable = true)
    (hdf : env.listItems id = .ok df) (hrows : df.rows = []) :
    get_workspace_total_size env self (some id) = .ok 0 := by
  simp [get_workspace_total_size, pyOr, pyTruthy, hid, hav, hdf, hrows]

/-- C3 witness. -/
theorem c3_empty_items_zero_witness :
    get_workspace_total_size envEmptyItems util0 (some "w") = .ok 0 :=
  c3_empty_items_zero envEmptyItems util0 "w" ⟨[], true, true⟩ (by decide) rfl rfl rfl

/-- C3 counterexample: with an available directory returning an empty item
list, the result differs from the placeholder item-list sum. -/
theorem c3_counterexample :
    get_workspace_total_size envEmptyItems util0 (some "w") ≠
      .ok placeholder_workspace_total := by
  decide

/-- C4: when `list_items` raises, `get_workspace_total_size` returns the
placeholder fallback sum — the same result as with the directory entirely
absent — and no error propagates to the caller. -/
theorem c4_list_items_failure_fallback (env : Env) (self : FabricUtil)
    (id msg : String) (hid : id ≠ "") (hav : env.fabricAvailable = true)
    (hfail : env.listItems id = .error msg) :
    get_workspace_total_size env self (some id) = .ok placeholder_workspace_total ∧
    get_workspace_total_size env self (some id) =
      get_workspace_total_size ⟨false, env.listWorkspaces, env.listItems⟩ self
        (some id) := by
  constructor
  · simp [get_workspace_total_size, pyOr, pyTruthy, hid, hav, hfail]
  · simp [get_workspace_total_size, pyOr, pyTruthy, hid, hav, hfail]

/-- C4 witness. -/
theorem c4_list_items_failure_fallback_witness :
    get_workspace_total_size envListItemsFail util0 (some "w") =
      .ok placeholder_workspace_total ∧
    get_workspace_total_size envListItemsFail util0 (some "w") =
      get_workspace_total_size
        ⟨false, envListItemsFail.listWorkspaces, envListItemsFail.listItems⟩ util0
        (some "w") :=
  c4_list_items_failure_fallback envListItemsFail util0 "w" "network failure"
    (by decide) rfl rfl

/-- C5: with no identifier argument and no configured identifier, both
calculators raise `ValueError` — independently of the environment, so before
any directory access. -/
theorem c5_missing_id_value_error (env : Env) (conn : Option String)
    (auth : String) (wid tid : Option String) :
    get_workspace_total_size env ⟨none, tid, conn, auth⟩ none =
      .error (.valueError
        "workspace_id must be provided either as parameter or during initialization") ∧
    get_tenant_total_size env ⟨wid, none, conn, auth⟩ none =
      .error (.valueError
        "tenant_id must be provided either as parameter or during initialization") :=
  ⟨rfl, rfl⟩

/-- C6: the estimator groups by type tag and multiplies counts by the table
entries; on `[Report, Report, Dashboard]` it returns
2 × 26,214,400 + 102,400 = 52,531,200 bytes. -/
theorem c6_estimate_groups_by_type :
    estimate_workspace_size
      ⟨[⟨0, "Report"⟩, ⟨0, "Report"⟩, ⟨0, "Dashboard"⟩], false, true⟩ =
      2 * 26214400 + 102400 ∧ 2 * 26214400 + 102400 = 52531200 := by
  decide

/-- C7: with no type information, the estimate is the row count times the
flat 20 MiB average, for every item list. -/
theorem c7_no_type_info_average (rows : List ItemRow) (hasSize : Bool) :
    estimate_workspace_size ⟨rows, hasSize, false⟩ = rows.length * 20971520 := by
  simp [estimate_workspace_size]

/-- C8: both calculators are deterministic — the result is a function of the
identifier argument, the configured state and the directory's availability
and contents alone, so two calls with identical inputs agree. -/
theorem c8_deterministic (env1 env2 : Env) (self : FabricUtil)
    (wid tid : Option String)
    (hav : env1.fabricAvailable = env2.fabricAvailable)
    (hws : env1.listWorkspaces = env2.listWorkspaces)
    (hitems : env1.listItems = env2.listItems) :
    get_workspace_total_size env1 self wid = get_workspace_total_size env2 self wid ∧
    get_tenant_total_size env1 self tid = get_tenant_total_size env2 self tid := by
  obtain ⟨a1, w1, i1⟩ := env1
  obtain ⟨a2, w2, i2⟩ := env2
  cases hav
  cases hws
  cases hitems
  exact ⟨rfl, rfl⟩

/-- C8 witness. -/
theorem c8_deterministic_witness :
    get_workspace_total_size envNoFabric util0 (some "w") =
      get_workspace_total_size envNoFabric util0 (some "w") ∧
    get_tenant_total_size envNoFabric util0 (some "t") =
      get_tenant_total_size envNoFabric util0 (some "t") :=
  c8_deterministic envNoFabric envNoFabric util0 (some "w") (some "t") rfl rfl rfl

/-- Helper: with a `Type` column, the grouped count-times-estimate sum equals
the per-item sum of the per-type estimates. -/
theorem estimate_eq_sum_over_items (rows : List ItemRow) (hasSize : Bool) :
    estimate_workspace_size ⟨rows, hasSize, true⟩ =
      ((rows.map ItemRow.type).map size_estimates_get).sum := by
  show ((rows.map ItemRow.type).toFinset.sum
      (fun t => size_estimates_get t * List.count t (rows.map ItemRow.type))) = _
  rw [Finset.sum_list_map_count]
  exact Finset.sum_congr rfl (fun t _ => by rw [smul_eq_mul]; exact Nat.mul_comm _ _)

/-- C9: an item whose type tag is absent from the static table contributes
exactly 1,048,576 bytes (1 MiB) to the estimate. -/
theorem c9_unknown_type_one_mib (rows : List ItemRow) (hasSize : Bool)
    (r : ItemRow) (hunknown : size_estimates.lookup r.type = none) :
    estimate_workspace_size ⟨r :: rows, hasSize, true⟩ =
      1048576 + estimate_workspace_size ⟨rows, hasSize, true⟩ := by
  rw [estimate_eq_sum_over_items, estimate_eq_sum_over_items]
  simp [size_estimates_get, hunknown]

/-- C9 witness. -/
theorem c9_unknown_type_one_mib_witness :
    estimate_workspace_size ⟨[⟨0, "Warehouse"⟩], false, true⟩ =
      1048576 + estimate_workspace_size ⟨[], false, true⟩ :=
  c9_unknown_type_one_mib [] false ⟨0, "Warehouse"⟩ (by decide)

/-- C10: an empty-string identifier argument behaves like no argument: it
falls back to the configured identifier, and raises `ValueError` when that
is itself absent or empty (`pyTruthy` false); for both calculators. -/
theorem c10_empty_string_like_none (env : Env) (self : FabricUtil) :
    (get_workspace_total_size env self (some "") =
      get_workspace_total_size env self none) ∧
    (pyTruthy self.workspace_id = false →
      get_workspace_total_size env self (some "") =
        .error (.valueError
          "workspace_id must be provided either as parameter or during initialization")) ∧
    (get_tenant_total_size env self (some "") =
      get_tenant_total_size env self none) ∧
    (pyTruthy self.tenant_id = false →
      get_tenant_total_size env self (some "") =
        .error (.valueError
          "tenant_id must be provided either as parameter or during initialization")) := by
  refine ⟨rfl, fun h => ?_, rfl, fun h => ?_⟩
  · have e1 : pyOr (some "") self.workspace_id = self.workspace_id := rfl
    simp only [get_workspace_total_size, e1, h]
    rfl
  · have e2 : pyOr (some "") self.tenant_id = self.tenant_id := rfl
    simp only [get_tenant_total_size, e2, h]
    rfl

/-- C10 witness. -/
theorem c10_empty_string_like_none_witness :
    get_workspace_total_size envNoFabric util0 (some "") =
      .error (.valueError
        "workspace_id must be provided either as parameter or during initialization") ∧
    get_tenant_total_size envNoFabric util0 (some "") =
      .error (.valueError
        "tenant_id must be provided either as parameter or during initialization") :=
  ⟨(c10_empty_string_like_none envNoFabric util0).2.1 rfl,
   (c10_empty_string_like_none envNoFabric util0).2.2.2 rfl⟩

end WorkspaceStorage
